import Mathlib

/-!
Verification development for the price-elasticity analyzer (`app.py`).

The program classifies products (ASINs) into four categories A/B/C/D from
(discount %, elasticity) observations, builds a result table and an annotated
chart. We embed the decision core shallowly: pandas data frames become lists
of records over `ℚ`, column aggregates (`max`, `mean`) become `Option ℚ`
valued functions (`None` on an empty selection), and the Streamlit/plotly
calls become a declarative `ChartSpec` value.
-/

namespace PriceElasticity

/-- One parsed data row, after the `値引き率_pct` column has been computed
(`app.py` line 246): `discount_pct = abs(値引き率) * 100`. -/
structure Observation where
  product_id : String
  discount_pct : ℚ
  list_price : ℚ
  demand_change : ℚ
  elasticity : ℚ
deriving DecidableEq

/-- pandas `Series.max()` over a nonempty column; combined with the
`if len(...) > 0 ... else None` guard of `classify_asin` this yields
`none` exactly on the empty selection. -/
def colMax? (l : List ℚ) : Option ℚ :=
  l.foldl (fun acc x => some (match acc with | none => x | some m => max m x)) none

/-- pandas `Series.mean()` with the same `None`-on-empty guard:
the arithmetic mean `sum / length`. -/
def colMean? (l : List ℚ) : Option ℚ :=
  if l.length > 0 then some (l.sum / (l.length : ℚ)) else none

/-- Embeds `deep_data = asin_data[asin_data['値引き率_pct'] >= deep_min]` (line 100). -/
def deep_data (asin_data : List Observation) (deep_min : ℚ) : List Observation :=
  asin_data.filter fun o => decide (deep_min ≤ o.discount_pct)

/-- Embeds `deep_elasticity = deep_data['価格弾力性'].max() if len(deep_data) > 0 else None`
(line 101). -/
def deepElasticity (asin_data : List Observation) (deep_min : ℚ) : Option ℚ :=
  colMax? ((deep_data asin_data deep_min).map (·.elasticity))

/-- Embeds `light_data = asin_data[(値引き率_pct >= 5) & (値引き率_pct <= light_max)]`
(line 104). -/
def light_data (asin_data : List Observation) (light_max : ℚ) : List Observation :=
  asin_data.filter fun o => decide (5 ≤ o.discount_pct) && decide (o.discount_pct ≤ light_max)

/-- Embeds `light_elasticity_max` (line 105). -/
def lightElasticityMax (asin_data : List Observation) (light_max : ℚ) : Option ℚ :=
  colMax? ((light_data asin_data light_max).map (·.elasticity))

/-- Embeds `light_elasticity_avg` (line 106). -/
def lightElasticityAvg (asin_data : List Observation) (light_max : ℚ) : Option ℚ :=
  colMean? ((light_data asin_data light_max).map (·.elasticity))

/-- The four result tuples `(category, label, recommendation, color)` returned
by `classify_asin`, verbatim from lines 112-125. -/
abbrev Classification := String × String × String × String

def catA : Classification := ("A", "閾値突破型", "20%オフ推奨", "#2ca02c")

def catB : Classification := ("B", "軽値引き反応型", "5-10%オフ推奨", "#1f77b4")

def catC : Classification := ("C", "低空飛行型", "セール見送り", "#d62728")

def catD : Classification := ("D", "検証必要", "データ不足", "#7f7f7f")

/-- Embeds `classify_asin` (lines 97-125), branch for branch.  A Python guard
`x is not None and P x` on an optional aggregate is `Option.any`;
`x is None or P x` is `Option.all`.  The two sub-branches of Rule A and the
fall-through `return "D"` reached from inside Rule C are kept as written. -/
def classify_asin (asin_data : List Observation)
    (threshold_high light_max deep_min : ℚ) : Classification :=
  let deep_elasticity := deepElasticity asin_data deep_min
  let light_elasticity_max := lightElasticityMax asin_data light_max
  let light_elasticity_avg := lightElasticityAvg asin_data light_max
  if deep_elasticity.any (fun d => decide (threshold_high < d)) then
    if light_elasticity_avg.any (fun a => decide (a < 0)) then catA
    else catA
  else if light_elasticity_max.any (fun m => decide (threshold_high / 2 < m)) then catB
  else if light_elasticity_avg.any (fun a => decide (a < 0)) then
    if deep_elasticity.all (fun d => decide (d < threshold_high)) then catC
    else catD
  else catD

/-- The reference algorithm exactly as spec §4.1 words it: Rule A as a single
branch, Rule C as one conjunctive condition, first matching rule wins. -/
def classifySpec (asin_data : List Observation)
    (threshold_high light_max deep_min : ℚ) : Classification :=
  let deep_elasticity := deepElasticity asin_data deep_min
  let light_elasticity_max := lightElasticityMax asin_data light_max
  let light_elasticity_avg := lightElasticityAvg asin_data light_max
  if deep_elasticity.any (fun d => decide (threshold_high < d)) then catA
  else if light_elasticity_max.any (fun m => decide (threshold_high / 2 < m)) then catB
  else if light_elasticity_avg.any (fun a => decide (a < 0)) &&
      deep_elasticity.all (fun d => decide (d < threshold_high)) then catC
  else catD

/-- The reimplementation suggested by the spec: `classify_asin` with the two
identical sub-branches of Rule A collapsed into one, everything else verbatim. -/
def classify_asin_collapsed (asin_data : List Observation)
    (threshold_high light_max deep_min : ℚ) : Classification :=
  let deep_elasticity := deepElasticity asin_data deep_min
  let light_elasticity_max := lightElasticityMax asin_data light_max
  let light_elasticity_avg := lightElasticityAvg asin_data light_max
  if deep_elasticity.any (fun d => decide (threshold_high < d)) then catA
  else if light_elasticity_max.any (fun m => decide (threshold_high / 2 < m)) then catB
  else if light_elasticity_avg.any (fun a => decide (a < 0)) then
    if deep_elasticity.all (fun d => decide (d < threshold_high)) then catC
    else catD
  else catD

/-- Insertion step of the stable sort modelling `sort_values('値引き率_pct')`. -/
def insertByPct (o : Observation) : List Observation → List Observation
  | [] => [o]
  | b :: bs =>
    if o.discount_pct ≤ b.discount_pct then o :: b :: bs else b :: insertByPct o bs

/-- Embeds `asin_data.sort_values('値引き率_pct')` (line 156): sort ascending by
`discount_pct` (tie order is unspecified by pandas' default quicksort; we fix
a stable insertion sort). -/
def sortByPct (l : List Observation) : List Observation := l.foldr insertByPct []

/-- Embeds `df['ASIN'].unique()` (line 133): distinct values in order of first
appearance. -/
def uniqueFirstAux (seen : List String) : List String → List String
  | [] => []
  | a :: as =>
    if a ∈ seen then uniqueFirstAux seen as else a :: uniqueFirstAux (a :: seen) as

def uniqueFirst (l : List String) : List String := uniqueFirstAux [] l

/-- One row of the `results` table built in the loop of `generate_graph`
(lines 170-176): ASIN, 商品名, パターン, 推奨, 定価. -/
structure ResultRow where
  asin : String
  product_name : String
  pattern : String
  recommendation : String
  list_price : ℚ
deriving DecidableEq

/-- The body of the per-ASIN loop (lines 155-176) that feeds `results`:
filter the frame to one ASIN, sort by `値引き率_pct`, skip if empty
(`continue`), look up the display name with the ASIN itself as default,
classify with the hard-coded band bounds `12` and `15` (line 167), and emit
the row.  `定価`.iloc[0] is the `list_price` of the first sorted observation. -/
def buildRow (dict : List (String × String)) (threshold_high : ℚ)
    (df : List Observation) (asin : String) : Option ResultRow :=
  match sortByPct (df.filter fun o => o.product_id == asin) with
  | [] => none
  | first :: rest =>
    let display_name := (dict.lookup asin).getD asin
    let r := classify_asin (first :: rest) threshold_high 12 15
    some ⟨asin, if display_name ≠ asin then display_name else "",
          r.1 ++ ". " ++ r.2.1, r.2.2.1, first.list_price⟩

/-- The `results` list returned (as a data frame) from `generate_graph`. -/
def resultRows (df : List Observation) (dict : List (String × String))
    (threshold_high : ℚ) : List ResultRow :=
  (uniqueFirst (df.map (·.product_id))).filterMap (buildRow dict threshold_high df)

/-- Embeds `fig.add_hrect(y0, y1, fillcolor, ...)` (lines 142-145). -/
structure HRect where
  y0 : ℚ
  y1 : ℚ
  fillcolor : String
deriving DecidableEq

/-- Embeds `fig.add_hline(y, line_dash, line_color, line_width, ...)`
(lines 148-151); `annotated_value` is the threshold value interpolated into
the `annotation_text` f-string, `none` when the line carries no text. -/
structure HLine where
  y : ℚ
  line_dash : String
  line_color : String
  line_width : ℚ
  annotated_value : Option ℚ
deriving DecidableEq

/-- One `go.Scatter` line-plus-markers trace (lines 179-192). -/
structure Trace where
  xs : List ℚ
  ys : List ℚ
  trace_label : String
  line_color : String
deriving DecidableEq

/-- The declarative content of the plotly figure built by `generate_graph`:
zone rectangles, reference lines, per-ASIN traces and the fixed axis setup of
lines 216-226. -/
structure ChartSpec where
  hrects : List HRect
  hlines : List HLine
  traces : List Trace
  xaxis_tickvals : List ℚ
  xaxis_range : ℚ × ℚ
  yaxis_range : ℚ × ℚ
deriving DecidableEq

/-- The `colors` palette (lines 136-139). -/
def palette : List String :=
  ["#1f77b4", "#ff7f0e", "#2ca02c", "#d62728", "#9467bd",
   "#8c564b", "#e377c2", "#7f7f7f", "#bcbd22", "#17becf"]

/-- The trace built for the `i`-th ASIN of the loop (lines 155-192):
`colors[i % len(colors)]`, legend label `f"{display_name} ({pattern})"`,
x = sorted `値引き率_pct`, y = `価格弾力性`. -/
def buildTrace (dict : List (String × String)) (threshold_high : ℚ)
    (df : List Observation) (i : ℕ) (asin : String) : Option Trace :=
  match sortByPct (df.filter fun o => o.product_id == asin) with
  | [] => none
  | first :: rest =>
    let color := palette.getD (i % palette.length) ""
    let display_name := (dict.lookup asin).getD asin
    let r := classify_asin (first :: rest) threshold_high 12 15
    some ⟨(first :: rest).map (·.discount_pct), (first :: rest).map (·.elasticity),
          display_name ++ " (" ++ r.1 ++ ")", color⟩

/-- Embeds `generate_graph(df, asin_names_dict, threshold_high, threshold_low)`
(lines 128-228): the two `add_hrect` zones, the two `add_hline` reference
lines, one trace per ASIN in first-appearance order, the fixed x tick values
`[5, 10, 15, 20, 25]`, x range `[3, 25]`, y range `[-25, 50]`, and the
`results` table. -/
def generate_graph (df : List Observation) (asin_names_map : List (String × String))
    (threshold_high threshold_low : ℚ) : ChartSpec × List ResultRow :=
  (⟨[⟨threshold_high, 50, "green"⟩, ⟨-30, threshold_low, "red"⟩],
    [⟨threshold_low, "solid", "gray", 3/2, none⟩,
     ⟨threshold_high, "dash", "green", 2, some threshold_high⟩],
    (uniqueFirst (df.map (·.product_id))).enum.filterMap
      (fun p => buildTrace asin_names_map threshold_high df p.1 p.2),
    [5, 10, 15, 20, 25], (3, 25), (-25, 50)⟩,
   resultRows df asin_names_map threshold_high)

/-- Python `str.strip()` whitespace set: space, tab, newline, carriage
return, vertical tab, form feed. -/
def isPySpace (c : Char) : Bool :=
  c = ' ' || c = '\t' || c = '\n' || c = '\r' || c = '\x0b' || c = '\x0c'

/-- Python `str.strip()` on a line held as a character list. -/
def pyStrip (s : List Char) : List Char :=
  ((s.dropWhile isPySpace).reverse.dropWhile isPySpace).reverse

/-- Python `line.split(sep, 1)` when `sep in line`: the part before the first
occurrence of `sep` and everything after it.  (The `[]` case is unreachable
under that guard.) -/
def splitOnce (sep : Char) : List Char → List Char × List Char
  | [] => ([], [])
  | c :: rest =>
    if c = sep then ([], rest)
    else
      let p := splitOnce sep rest
      (c :: p.1, p.2)

/-- One iteration of the mapping-parse loop (lines 251-260): tab-containing
lines split at the first tab, otherwise comma-containing lines split at the
first comma, otherwise the line is skipped (`continue`); both parts are
stripped.  (`len(parts) == 2` always holds when the separator is present.) -/
def parse_name_line (line : List Char) : Option (List Char × List Char) :=
  if line.contains '\t' then
    let p := splitOnce '\t' line
    some (pyStrip p.1, pyStrip p.2)
  else if line.contains ',' then
    let p := splitOnce ',' line
    some (pyStrip p.1, pyStrip p.2)
  else none

/-- Splitting a line at the first character satisfying `isSep`, `none` when
no character does. -/
def splitAtFirst (isSep : Char → Bool) : List Char → Option (List Char × List Char)
  | [] => none
  | c :: rest =>
    if isSep c then some ([], rest)
    else (splitAtFirst isSep rest).map fun p => (c :: p.1, p.2)

/-- The per-line behaviour as the spec words it: "first separator on each
line splits the line into exactly two parts", a separator being a tab or a
comma — i.e. the split happens at whichever of the two occurs first. -/
def parse_name_line_spec (line : List Char) : Option (List Char × List Char) :=
  (splitAtFirst (fun c => c = '\t' || c = ',') line).map
    fun p => (pyStrip p.1, pyStrip p.2)

/-- The whole `asin_names_dict` construction (lines 249-260) over the
already-split lines of the text area.  Python dict assignment is
last-write-wins; prepending with `List.lookup` reads give the same lookups. -/
def asin_names_dict (lines : List (List Char)) : List (String × String) :=
  lines.foldl
    (fun d line =>
      match parse_name_line line with
      | none => d
      | some p => (String.mk p.1, String.mk p.2) :: d)
    []

/-- The sidebar configuration (lines 57-63) with its four numeric inputs. -/
structure Config where
  threshold_high : ℚ
  threshold_low : ℚ
  light_discount_max : ℚ
  deep_discount_min : ℚ
deriving DecidableEq

/-- The sidebar defaults: `value=10.0`, `value=0.0`, `value=10`, `value=20`. -/
def defaultConfig : Config := ⟨10, 0, 10, 20⟩

/-- One raw CSV row before the `値引き率_pct` column is added. -/
structure RawRow where
  product_id : String
  discount_rate : ℚ
  list_price : ℚ
  demand_change : ℚ
  elasticity : ℚ
deriving DecidableEq

/-- Embeds `df['値引き率_pct'] = df['値引き率'].abs() * 100` (line 246). -/
def toObservation (r : RawRow) : Observation :=
  ⟨r.product_id, |r.discount_rate| * 100, r.list_price, r.demand_change, r.elasticity⟩

/-- The generation trigger (lines 243-265): compute the pct column, parse the
name mapping, and call `generate_graph` with the configured thresholds.
`light_discount_max` and `deep_discount_min` are never passed on. -/
def runApp (cfg : Config) (raw : List RawRow) (name_lines : List (List Char)) :
    ChartSpec × List ResultRow :=
  generate_graph (raw.map toObservation) (asin_names_dict name_lines)
    cfg.threshold_high cfg.threshold_low

/-! ### Concrete rows used by the witnesses -/

/-- A deep-discount observation with strong response (cf. sample row
`B0SAMPLE02,-0.2,3000,8.105,40.525`, with the numerics rounded to keep the
witnesses kernel-decidable). -/
def oDeep : Observation := ⟨"B01", 20, 3000, 8, 40⟩

/-- A deep-discount observation with negative response. -/
def oNeg : Observation := ⟨"B01", 20, 1500, 0, -1⟩

/-- A below-band observation (`discount_pct = 3`, spec Scenario 5). -/
def oLow : Observation := ⟨"B01", 3, 1500, 0, 5⟩

/-! ### C1: the classifier agrees with the reference algorithm of spec §4.1 -/

/-- C1: for every threshold configuration and every non-empty product series,
`classify_asin` returns exactly what the spec §4.1 reference algorithm
(single Rule A branch, conjunctive Rule C, first match wins, evaluated in
order A, B, C, D) returns. -/
theorem classify_asin_eq_spec (asin_data : List Observation)
    (threshold_high light_max deep_min : ℚ) (_h : asin_data ≠ []) :
    classify_asin asin_data threshold_high light_max deep_min =
      classifySpec asin_data threshold_high light_max deep_min := by
  simp only [classify_asin, classifySpec]
  cases hA : (deepElasticity asin_data deep_min).any (fun d => decide (threshold_high < d)) <;>
  cases hB : (lightElasticityMax asin_data light_max).any
      (fun m => decide (threshold_high / 2 < m)) <;>
  cases hC : (lightElasticityAvg asin_data light_max).any (fun a => decide (a < 0)) <;>
  cases hD : (deepElasticity asin_data deep_min).all (fun d => decide (d < threshold_high)) <;>
  simp [hA, hB, hC, hD]

/-- Witness for C1 at the concrete single-row series `[oDeep]`. -/
theorem classify_asin_eq_spec_witness :
    ([oDeep] : List Observation) ≠ [] ∧
    classify_asin [oDeep] 10 12 15 = classifySpec [oDeep] 10 12 15 :=
  ⟨by decide, classify_asin_eq_spec [oDeep] 10 12 15 (by decide)⟩

/-! ### C2: totality — exactly one of the four fixed tuples -/

/-- C2: on every threshold configuration and non-empty product series the
classifier resolves to one of the four complete tuples
`catA`/`catB`/`catC`/`catD` (A green `#2ca02c`, B blue `#1f77b4`, C red
`#d62728`, D gray `#7f7f7f`); no input reaches an unmatched case or a
partial result. -/
theorem classify_asin_total (asin_data : List Observation)
    (threshold_high light_max deep_min : ℚ) (_h : asin_data ≠ []) :
    classify_asin asin_data threshold_high light_max deep_min = catA ∨
    classify_asin asin_data threshold_high light_max deep_min = catB ∨
    classify_asin asin_data threshold_high light_max deep_min = catC ∨
    classify_asin asin_data threshold_high light_max deep_min = catD := by
  simp only [classify_asin]
  split_ifs <;> tauto

/-- Witness for C2 at the concrete single-row series `[oNeg]`. -/
theorem classify_asin_total_witness :
    classify_asin [oNeg] 10 12 15 = catA ∨
    classify_asin [oNeg] 10 12 15 = catB ∨
    classify_asin [oNeg] 10 12 15 = catC ∨
    classify_asin [oNeg] 10 12 15 = catD :=
  classify_asin_total [oNeg] 10 12 15 (by decide)

/-! ### C4: all aggregates absent resolves to category D -/

/-- C4: when no observation lies in the light band `[5, light_max]` and none
has `discount_pct ≥ deep_min`, all three aggregates are `none`, every
`None`-guarded rule short-circuits to "does not match" (the embedding is a
total function, so no exception is possible), and the classifier resolves to
category D (`検証必要` / `データ不足`). -/
theorem classify_asin_all_absent (asin_data : List Observation)
    (threshold_high light_max deep_min : ℚ)
    (hl : ∀ o ∈ asin_data, ¬(5 ≤ o.discount_pct ∧ o.discount_pct ≤ light_max))
    (hd : ∀ o ∈ asin_data, ¬deep_min ≤ o.discount_pct) :
    classify_asin asin_data threshold_high light_max deep_min = catD := by
  have h1 : deep_data asin_data deep_min = [] := by
    rw [deep_data, List.filter_eq_nil_iff]
    intro o ho
    simpa using hd o ho
  have h2 : light_data asin_data light_max = [] := by
    rw [light_data, List.filter_eq_nil_iff]
    intro o ho
    simpa using hl o ho
  simp [classify_asin, deepElasticity, lightElasticityMax, lightElasticityAvg,
    h1, h2, colMax?, colMean?]

/-- Witness for C4 at spec Scenario 5: one observation at `discount_pct = 3`. -/
theorem classify_asin_all_absent_witness :
    classify_asin [oLow] 10 12 15 = catD :=
  classify_asin_all_absent [oLow] 10 12 15 (by decide) (by decide)

/-! ### C5: Rule A dominates and its two sub-branches collapse -/

/-- C5: whenever the deep aggregate exists and exceeds `threshold_high` the
classifier returns category A regardless of the light-band aggregates (in
particular when Rule B's condition also holds), and since the two
sub-branches on the sign of `light_elasticity_avg` return identical tuples
the classifier is extensionally equal to the reimplementation
`classify_asin_collapsed` with a single Rule A branch. -/
theorem classify_asin_ruleA_collapse (asin_data : List Observation)
    (threshold_high light_max deep_min : ℚ) :
    classify_asin asin_data threshold_high light_max deep_min =
      classify_asin_collapsed asin_data threshold_high light_max deep_min ∧
    ((deepElasticity asin_data deep_min).any (fun d => decide (threshold_high < d)) = true →
      classify_asin asin_data threshold_high light_max deep_min = catA) := by
  constructor
  · simp only [classify_asin, classify_asin_collapsed, ite_self]
  · intro h
    simp [classify_asin, h]

/-- Witness for C5 at the concrete series `[oDeep]` (deep elasticity `40 > 10`). -/
theorem classify_asin_ruleA_collapse_witness :
    classify_asin [oDeep] 10 12 15 = classify_asin_collapsed [oDeep] 10 12 15 ∧
    classify_asin [oDeep] 10 12 15 = catA :=
  ⟨(classify_asin_ruleA_collapse [oDeep] 10 12 15).1,
   (classify_asin_ruleA_collapse [oDeep] 10 12 15).2 (by decide)⟩

/-! ### C8: classification ignores `list_price` and `demand_change` -/

/-- The deep-band elasticity column is a function of the
`(discount_pct, elasticity)` projection of the series. -/
lemma deep_map_proj (s : List Observation) (deep_min : ℚ) :
    (deep_data s deep_min).map (·.elasticity) =
      ((s.map fun o => (o.discount_pct, o.elasticity)).filter
        fun q => decide (deep_min ≤ q.1)).map (·.2) := by
  induction s with
  | nil => rfl
  | cons a t ih =>
    simp only [deep_data, List.filter_cons, List.map_cons] at *
    by_cases h : deep_min ≤ a.discount_pct <;> simp [h, ih]

/-- The light-band elasticity column is a function of the
`(discount_pct, elasticity)` projection of the series. -/
lemma light_map_proj (s : List Observation) (light_max : ℚ) :
    (light_data s light_max).map (·.elasticity) =
      ((s.map fun o => (o.discount_pct, o.elasticity)).filter
        fun q => decide (5 ≤ q.1) && decide (q.1 ≤ light_max)).map (·.2) := by
  induction s with
  | nil => rfl
  | cons a t ih =>
    simp only [light_data, List.filter_cons, List.map_cons] at *
    by_cases h5 : 5 ≤ a.discount_pct <;> by_cases hm : a.discount_pct ≤ light_max <;>
      simp [h5, hm, ih]

/-- C8: the classification result depends only on the
`(discount_pct, elasticity)` pairs; two series agreeing pairwise on those
fields but differing in `list_price` and/or `demand_change` (or even
`product_id`) classify identically. -/
theorem classify_asin_price_independent (s1 s2 : List Observation)
    (threshold_high light_max deep_min : ℚ)
    (h : s1.map (fun o => (o.discount_pct, o.elasticity)) =
      s2.map (fun o => (o.discount_pct, o.elasticity))) :
    classify_asin s1 threshold_high light_max deep_min =
      classify_asin s2 threshold_high light_max deep_min := by
  have hd : (deep_data s1 deep_min).map (·.elasticity) =
      (deep_data s2 deep_min).map (·.elasticity) := by
    rw [deep_map_proj, deep_map_proj, h]
  have hl : (light_data s1 light_max).map (·.elasticity) =
      (light_data s2 light_max).map (·.elasticity) := by
    rw [light_map_proj, light_map_proj, h]
  simp only [classify_asin, deepElasticity, lightElasticityMax, lightElasticityAvg, hd, hl]

/-- A copy of `oDeep` with different `list_price` and `demand_change`. -/
def oDeepRepriced : Observation := ⟨"B01", 20, 999, -7, 40⟩

/-- Witness for C8: `[oDeep]` versus its repriced copy. -/
theorem classify_asin_price_independent_witness :
    classify_asin [oDeep] 10 12 15 = classify_asin [oDeepRepriced] 10 12 15 :=
  classify_asin_price_independent [oDeep] [oDeepRepriced] 10 12 15 (by decide)

/-! ### C10: classification is invariant under permutation of the series -/

/-- The fold underlying `colMax?` is invariant under permutation, for any
accumulator. -/
lemma colMax?_foldl_perm {l1 l2 : List ℚ} (h : l1.Perm l2) :
    ∀ acc : Option ℚ,
      l1.foldl (fun acc x => some (match acc with | none => x | some m => max m x)) acc =
      l2.foldl (fun acc x => some (match acc with | none => x | some m => max m x)) acc := by
  induction h with
  | nil => intro acc; rfl
  | cons x _ ih => intro acc; simp only [List.foldl_cons]; exact ih _
  | swap x y l =>
    intro acc
    simp only [List.foldl_cons]
    cases acc with
    | none => rw [max_comm]
    | some m => rw [max_assoc, max_assoc, max_comm y x]
  | trans _ _ ih1 ih2 => intro acc; rw [ih1, ih2]

/-- Aggregate `colMax?` is invariant under permutation. -/
lemma colMax?_perm {l1 l2 : List ℚ} (h : l1.Perm l2) : colMax? l1 = colMax? l2 :=
  colMax?_foldl_perm h none

/-- Aggregate `colMean?` is invariant under permutation (length and sum both are). -/
lemma colMean?_perm {l1 l2 : List ℚ} (h : l1.Perm l2) : colMean? l1 = colMean? l2 := by
  unfold colMean?
  rw [h.length_eq, h.sum_eq]

/-- C10: reordering the observations of a series never changes the
classification tuple — every aggregate used (band filters, maximum, mean)
depends only on the multiset of rows. -/
theorem classify_asin_perm_invariant (s1 s2 : List Observation)
    (threshold_high light_max deep_min : ℚ) (h : s1.Perm s2) :
    classify_asin s1 threshold_high light_max deep_min =
      classify_asin s2 threshold_high light_max deep_min := by
  have hdp : ((deep_data s1 deep_min).map (·.elasticity)).Perm
      ((deep_data s2 deep_min).map (·.elasticity)) := ((h.filter _).map _)
  have hlp : ((light_data s1 light_max).map (·.elasticity)).Perm
      ((light_data s2 light_max).map (·.elasticity)) := ((h.filter _).map _)
  have hd : deepElasticity s1 deep_min = deepElasticity s2 deep_min := colMax?_perm hdp
  have hm : lightElasticityMax s1 light_max = lightElasticityMax s2 light_max :=
    colMax?_perm hlp
  have ha : lightElasticityAvg s1 light_max = lightElasticityAvg s2 light_max :=
    colMean?_perm hlp
  simp only [classify_asin, hd, hm, ha]

/-- Witness for C10: swapping the two rows of a concrete series. -/
theorem classify_asin_perm_invariant_witness :
    classify_asin [oDeep, oLow] 10 12 15 = classify_asin [oLow, oDeep] 10 12 15 :=
  classify_asin_perm_invariant [oDeep, oLow] [oLow, oDeep] 10 12 15 (by decide)

/-! ### Report-builder lemmas -/

/-- Membership in the deduplicated list: exactly the values of the input not
already seen. -/
lemma mem_uniqueFirstAux (a : String) (l : List String) : ∀ seen : List String,
    a ∈ uniqueFirstAux seen l ↔ a ∈ l ∧ a ∉ seen := by
  induction l with
  | nil => intro seen; simp [uniqueFirstAux]
  | cons b t ih =>
    intro seen
    by_cases hb : b ∈ seen
    · rw [uniqueFirstAux, if_pos hb, ih seen]
      constructor
      · exact fun ⟨ht, hs⟩ => ⟨List.mem_cons_of_mem _ ht, hs⟩
      · rintro ⟨hbt, hs⟩
        rcases List.mem_cons.mp hbt with rfl | ht
        · exact absurd hb hs
        · exact ⟨ht, hs⟩
    · rw [uniqueFirstAux, if_neg hb, List.mem_cons, ih (b :: seen)]
      constructor
      · rintro (rfl | ⟨ht, hs⟩)
        · exact ⟨List.mem_cons_self _ _, hb⟩
        · exact ⟨List.mem_cons_of_mem _ ht, fun hsa => hs (List.mem_cons_of_mem _ hsa)⟩
      · rintro ⟨hbt, hs⟩
        rcases List.mem_cons.mp hbt with rfl | ht
        · exact Or.inl rfl
        · by_cases hab : a = b
          · exact Or.inl hab
          · exact Or.inr ⟨ht, by simp [List.mem_cons, hab, hs]⟩

/-- Membership in `uniqueFirst` is membership in the input. -/
lemma mem_uniqueFirst {a : String} {l : List String} :
    a ∈ uniqueFirst l ↔ a ∈ l := by
  rw [uniqueFirst, mem_uniqueFirstAux]
  simp

/-- Inserting adds one element to the length. -/
lemma length_insertByPct (o : Observation) (l : List Observation) :
    (insertByPct o l).length = l.length + 1 := by
  induction l with
  | nil => rfl
  | cons b bs ih =>
    rw [insertByPct]
    by_cases h : o.discount_pct ≤ b.discount_pct <;> simp [h, ih]

/-- Sorting preserves length. -/
lemma length_sortByPct (l : List Observation) : (sortByPct l).length = l.length := by
  induction l with
  | nil => rfl
  | cons b bs ih => rw [sortByPct, List.foldr_cons, length_insertByPct]; simpa [sortByPct] using ih

/-- The sort is empty exactly on the empty frame. -/
lemma sortByPct_eq_nil_iff {l : List Observation} : sortByPct l = [] ↔ l = [] := by
  constructor
  · intro h
    have := length_sortByPct l
    rw [h] at this
    exact List.length_eq_zero.mp this.symm
  · rintro rfl; rfl

/-- An ASIN appearing in the frame has a nonempty per-ASIN selection. -/
lemma filter_asin_ne_nil {df : List Observation} {a : String}
    (h : a ∈ df.map (·.product_id)) :
    df.filter (fun o => o.product_id == a) ≠ [] := by
  rcases List.mem_map.mp h with ⟨o, ho, rfl⟩
  intro hnil
  have : o ∈ df.filter (fun o' => o'.product_id == o.product_id) :=
    List.mem_filter.mpr ⟨ho, by simp⟩
  rw [hnil] at this
  exact absurd this (List.not_mem_nil o)

/-- On an ASIN present in the frame, `buildRow` produces a row carrying that
ASIN. -/
lemma buildRow_asin {dict : List (String × String)} {threshold_high : ℚ}
    {df : List Observation} {a : String} (h : a ∈ df.map (·.product_id)) :
    ∃ r, buildRow dict threshold_high df a = some r ∧ r.asin = a := by
  have hne : sortByPct (df.filter fun o => o.product_id == a) ≠ [] :=
    fun hs => filter_asin_ne_nil h (sortByPct_eq_nil_iff.mp hs)
  rw [buildRow]
  rcases hd : sortByPct (df.filter fun o => o.product_id == a) with _ | ⟨first, rest⟩
  · exact absurd hd hne
  · exact ⟨_, rfl, rfl⟩

/-- Emitting rows over a list of ASINs all present in the frame loses nothing
and keeps the order. -/
lemma map_asin_filterMap_buildRow (dict : List (String × String)) (threshold_high : ℚ)
    (df : List Observation) :
    ∀ l : List String, (∀ a ∈ l, a ∈ df.map (·.product_id)) →
      (l.filterMap (buildRow dict threshold_high df)).map (·.asin) = l := by
  intro l
  induction l with
  | nil => intro _; rfl
  | cons a t ih =>
    intro hmem
    rcases @buildRow_asin dict threshold_high df a
      (hmem a (List.mem_cons_self a t)) with ⟨r, hr, hasin⟩
    rw [List.filterMap_cons, hr, List.map_cons, hasin,
      ih fun b hb => hmem b (List.mem_cons_of_mem a hb)]

/-- The emitted ASIN column is exactly the deduplicated first-appearance
list of the input. -/
lemma resultRows_map_asin (df : List Observation) (dict : List (String × String))
    (threshold_high : ℚ) :
    (resultRows df dict threshold_high).map (·.asin) =
      uniqueFirst (df.map (·.product_id)) := by
  rw [resultRows]
  exact map_asin_filterMap_buildRow dict threshold_high df _
    fun a ha => mem_uniqueFirst.mp ha

/-! ### C6: the report builder's row structure and ordering -/

/-- C6: the report emits exactly one row per distinct `product_id`, in first
appearance order (and that order is a function of the raw ASIN column alone,
hence unchanged by redistributing rows within each product); a product with an
empty selection would be skipped; each row carries the ASIN, the display name
(empty when the mapping has no entry or maps the ASIN to itself), the combined
`"<letter>. <label>"` string, the recommendation, and the `list_price` of the
first observation after sorting by `discount_pct`. -/
theorem resultRows_spec (df : List Observation) (dict : List (String × String))
    (threshold_high : ℚ) :
    (resultRows df dict threshold_high).map (·.asin) =
      uniqueFirst (df.map (·.product_id)) ∧
    (∀ df' : List Observation, df'.map (·.product_id) = df.map (·.product_id) →
      (resultRows df' dict threshold_high).map (·.asin) =
        (resultRows df dict threshold_high).map (·.asin)) ∧
    resultRows df dict threshold_high =
      (uniqueFirst (df.map (·.product_id))).filterMap (fun a =>
        match sortByPct (df.filter fun o => o.product_id == a) with
        | [] => none
        | first :: rest =>
          some ⟨a,
            if (dict.lookup a).getD a ≠ a then (dict.lookup a).getD a else "",
            (classify_asin (first :: rest) threshold_high 12 15).1 ++ ". " ++
              (classify_asin (first :: rest) threshold_high 12 15).2.1,
            (classify_asin (first :: rest) threshold_high 12 15).2.2.1,
            first.list_price⟩) := by
  refine ⟨resultRows_map_asin df dict threshold_high, ?_, rfl⟩
  intro df' hids
  rw [resultRows_map_asin, resultRows_map_asin, hids]

/-- Two-product frame for the C6 witness; the products interleave. -/
def dfEx : List Observation :=
  [⟨"P2", 20, 100, 0, 40⟩, ⟨"P1", 3, 200, 0, 1⟩, ⟨"P2", 16, 100, 0, 2⟩]

/-- Frame `dfEx` with the two `"P2"` rows exchanged (a within-product reorder). -/
def dfExSwapped : List Observation :=
  [⟨"P2", 16, 100, 0, 2⟩, ⟨"P1", 3, 200, 0, 1⟩, ⟨"P2", 20, 100, 0, 40⟩]

/-- Name mapping for the C6 witness: `"P1"` maps to itself, `"P2"` is absent. -/
def dictEx : List (String × String) := [("P1", "P1")]

/-- Witness for C6 at the concrete frame `dfEx`. -/
theorem resultRows_spec_witness :
    (resultRows dfEx dictEx 10).map (·.asin) = uniqueFirst (dfEx.map (·.product_id)) ∧
    (resultRows dfExSwapped dictEx 10).map (·.asin) =
      (resultRows dfEx dictEx 10).map (·.asin) :=
  ⟨(resultRows_spec dfEx dictEx 10).1,
   (resultRows_spec dfEx dictEx 10).2.1 dfExSwapped (by decide)⟩

/-! ### C3: the call site fixes the band boundaries at 12 and 15 -/

/-- C3: report and chart generation classify with the hard-coded band
boundaries `light_max = 12` and `deep_min = 15` (visible in the unfolded
`buildRow` equation below), not with the configurable
`light_discount_max`/`deep_discount_min` (defaults 10 and 20) — so changing
those two configuration values never changes any output of a run. -/
theorem classification_uses_fixed_bands (th tl lm dm lm' dm' : ℚ)
    (raw : List RawRow) (name_lines : List (List Char)) :
    runApp ⟨th, tl, lm, dm⟩ raw name_lines = runApp ⟨th, tl, lm', dm'⟩ raw name_lines ∧
    defaultConfig.light_discount_max = 10 ∧
    defaultConfig.deep_discount_min = 20 ∧
    (∀ (dict : List (String × String)) (df : List Observation) (asin : String),
      buildRow dict th df asin =
        match sortByPct (df.filter fun o => o.product_id == asin) with
        | [] => none
        | first :: rest =>
          some ⟨asin,
            if (dict.lookup asin).getD asin ≠ asin then (dict.lookup asin).getD asin else "",
            (classify_asin (first :: rest) th 12 15).1 ++ ". " ++
              (classify_asin (first :: rest) th 12 15).2.1,
            (classify_asin (first :: rest) th 12 15).2.2.1,
            first.list_price⟩) :=
  ⟨rfl, rfl, rfl, fun _ _ _ => rfl⟩

/-! ### C9: the chart's static annotations and axes -/

/-- C9: for every threshold configuration the chart carries exactly the two
shaded bands (`threshold_high` up to the fixed ceiling 50, and the fixed
floor −30 up to `threshold_low`), the solid reference line at
`threshold_low`, the dashed reference line at `threshold_high` annotated with
its numeric value, x ticks at 5/10/15/20/25 on range `[3, 25]`, and y range
`[−25, 50]`. -/
theorem chart_static_annotations (df : List Observation)
    (dict : List (String × String)) (th tl : ℚ) :
    (generate_graph df dict th tl).1.hrects =
      [⟨th, 50, "green"⟩, ⟨-30, tl, "red"⟩] ∧
    (generate_graph df dict th tl).1.hlines =
      [⟨tl, "solid", "gray", 3/2, none⟩, ⟨th, "dash", "green", 2, some th⟩] ∧
    (generate_graph df dict th tl).1.xaxis_tickvals = [5, 10, 15, 20, 25] ∧
    (generate_graph df dict th tl).1.xaxis_range = (3, 25) ∧
    (generate_graph df dict th tl).1.yaxis_range = (-25, 50) :=
  ⟨rfl, rfl, rfl, rfl, rfl⟩

/-! ### C7: name-mapping line splitting -/

/-- A line containing both separators, the comma strictly before the tab. -/
def exLineBoth : List Char := ['a', ',', 'b', '\t', 'c']

/-- C7 counterexample: on `"a,b\tc"` the code splits at the tab
(`('a,b', 'c')`) although the first separator in the line is the comma, where
the claimed first-separator rule (`parse_name_line_spec`) splits into
`('a', 'b\tc')`; the two disagree. -/
theorem parse_name_line_counterexample :
    parse_name_line exLineBoth = some (['a', ',', 'b'], ['c']) ∧
    parse_name_line_spec exLineBoth = some (['a'], ['b', '\t', 'c']) ∧
    parse_name_line exLineBoth ≠ parse_name_line_spec exLineBoth := by
  refine ⟨by decide, by decide, by decide⟩

/-- When `sep` occurs in the line, splitting at its first occurrence is what
`line.split(sep, 1)` computes. -/
lemma splitAtFirst_eq_splitOnce (sep : Char) (line : List Char) (h : sep ∈ line) :
    splitAtFirst (fun c => c = sep) line = some (splitOnce sep line) := by
  induction line with
  | nil => simp at h
  | cons c rest ih =>
    by_cases hc : c = sep
    · simp [splitAtFirst, splitOnce, hc]
    · rcases List.mem_cons.mp h with h1 | h1
      · exact absurd h1.symm hc
      · simp [splitAtFirst, splitOnce, hc, ih h1]

/-- C7 amended: each line is split into exactly two stripped parts, with the
tab taking priority — a tab-containing line splits at its first tab even when
a comma occurs earlier, an otherwise comma-containing line splits at its
first comma, and a line containing neither separator is skipped. -/
theorem parse_name_line_tab_priority (line : List Char) :
    parse_name_line line =
      if line.contains '\t' then
        (splitAtFirst (fun c => c = '\t') line).map fun p => (pyStrip p.1, pyStrip p.2)
      else if line.contains ',' then
        (splitAtFirst (fun c => c = ',') line).map fun p => (pyStrip p.1, pyStrip p.2)
      else none := by
  by_cases ht : '\t' ∈ line
  · simp [parse_name_line, ht, splitAtFirst_eq_splitOnce _ _ ht]
  · by_cases hc : ',' ∈ line
    · simp [parse_name_line, ht, hc, splitAtFirst_eq_splitOnce _ _ hc]
    · simp [parse_name_line, ht, hc]

end PriceElasticity
